import Mathlib

/- Verification development for the ActionRegistry input-binding registry
   (src/src/ActionRegistry.js): an in-memory mapping from keyboard key
   identifiers (strings) to ordered lists of action names (strings).

   The JavaScript class stores `this.bindings`, a plain object; a lookup
   `this.bindings[k]` yields either `undefined` (absent key) or the stored
   value, which by the data model is an array of strings but may, in a
   corrupted table, be a scalar string. We embed the stored values as an
   inductive `JSVal`, the table as a function `String → Option JSVal`
   (`none` = `undefined`), and each method as a function returning the
   thrown exception, if any (`Option String`), together with its result
   and/or the table after the call, mirroring the observable semantics of
   the class faithfully — including JavaScript truthiness, which the code
   uses in `addBindKeyTo`, `getActionsForKey` and `isBound`. -/

namespace ActionRegistry

/-- A value stored in the binding table: either an array of action-name
strings (the intended shape) or a scalar string (a corrupted entry, as in
the spec's invalid-state scenario). -/
inductive JSVal where
  | vstr : String → JSVal
  | varr : List String → JSVal
deriving DecidableEq, Repr

/-- JavaScript truthiness of a table lookup result: `undefined` and the
empty string are falsy; every nonempty string and every array (including
the empty array) is truthy. -/
def truthy : Option JSVal → Bool
  | none => false
  | some (JSVal.vstr s) => if s = "" then false else true
  | some (JSVal.varr _) => true

/-- `Array.isArray` applied to a table lookup result. -/
def isArray : Option JSVal → Bool
  | some (JSVal.varr _) => true
  | _ => false

/-- The binding table `this.bindings`: key identifier → stored value,
with `none` for an absent key (`undefined`). -/
abbrev Table : Type := String → Option JSVal

/-- The empty table `{}` — the default used by `constructor (bindings = {})`. -/
def emptyTable : Table := fun _ => none

/-- Property assignment `this.bindings[k] = v`. -/
def tableSet (t : Table) (k : String) (v : JSVal) : Table :=
  fun k2 => if k2 = k then some v else t k2

/-- `constructor (bindings = {})`: the registry takes the supplied table by
reference, or starts with the empty table when the argument is omitted
(`none` here models an omitted argument). -/
def mkRegistry : Option Table → Table
  | some b => b
  | none => emptyTable

/-- The second argument of `addBindKeyTo`: either a single action string or
an array of action strings (the code distinguishes them via `Array.isArray`). -/
inductive ActionInput where
  | single : String → ActionInput
  | array : List String → ActionInput

/-- The list of action names an `ActionInput` denotes: `binding.push(x)`
pushes one element, `binding.push(...xs)` pushes each element of `xs`. -/
def actionsOf : ActionInput → List String
  | ActionInput.single s => [s]
  | ActionInput.array l => l

/-- `addBindKeyTo(keyValue, actionOrActionArray)`. Returns the thrown
error, if any, and the binding table after the call.

Source logic, on `let binding = this.bindings[keyValue]`:
* `binding` truthy and an array (the `some (varr l)` case — arrays are
  always truthy): both guards fail and `binding.push(...)` extends the
  stored array in place, so the table maps `keyValue` to the extended
  array;
* `binding` falsy (`none`, i.e. `undefined`, or the stored empty string):
  the first guard fires and `binding = []` rebinds the local variable to a
  fresh array; the subsequent `push` fills that local array, which is
  never assigned back into `this.bindings`, so the table is unchanged and
  nothing is thrown;
* `binding` truthy and not an array (a stored nonempty string): the
  second guard fires and the method throws
  `` `Binding ${binding} is not an array. All bindings must be an array of action!` ``
  before any mutation. -/
def addBindKeyTo (t : Table) (keyValue : String) (a : ActionInput) :
    Option String × Table :=
  match t keyValue with
  | some (JSVal.varr l) =>
      (none, tableSet t keyValue (JSVal.varr (l ++ actionsOf a)))
  | some (JSVal.vstr s) =>
      if s = "" then
        (none, t)
      else
        (some ("Binding " ++ s ++
          " is not an array. All bindings must be an array of action!"), t)
  | none => (none, t)

/-- `setBindingTo(keyValue, actionArray)`: unconditionally
`this.bindings[keyValue] = actionArray`. The body contains no throw, so
the error component is always `none`. -/
def setBindingTo (t : Table) (keyValue : String) (actionArray : List String) :
    Option String × Table :=
  (none, tableSet t keyValue (JSVal.varr actionArray))

/-- `getActionsForKey(keyValue)`: `return this.bindings[keyValue] || null`.
A falsy stored value (absent key, or the stored empty string) yields the
null sentinel (`none`); a truthy stored value is returned as-is. The body
contains no throw, so the error component is always `none`. -/
def getActionsForKey (t : Table) (keyValue : String) :
    Option String × Option JSVal :=
  (none, if truthy (t keyValue) then t keyValue else none)

/-- `isBound(keyValue)`: `return !!this.getActionsForKey(keyValue)` —
the truthiness of the query result, propagating any error it threw. -/
def isBound (t : Table) (keyValue : String) : Option String × Bool :=
  ((getActionsForKey t keyValue).1, truthy (getActionsForKey t keyValue).2)

/-- C1: the claim says `addBindKeyTo` on a never-bound key `k` stores the
given action(s) so that `getActionsForKey(k)` returns `["X"]` (resp.
`["X","Y"]`). Evaluating the code at that input shows the opposite: the
freshly created local action list is never assigned into `this.bindings`,
so the call throws nothing but leaves the table unchanged, and
`getActionsForKey(k)` still returns the null sentinel. This contradicts
the method's own documentation ("If the action doesn't exist, then it
creates that action and adds the key value"). -/
theorem C1_addBind_unbound_key_lost :
    addBindKeyTo emptyTable "k" (ActionInput.single "X") = (none, emptyTable) ∧
    (getActionsForKey
      (addBindKeyTo emptyTable "k" (ActionInput.single "X")).2 "k").2 = none ∧
    addBindKeyTo emptyTable "k" (ActionInput.array ["X", "Y"]) = (none, emptyTable) ∧
    (getActionsForKey
      (addBindKeyTo emptyTable "k" (ActionInput.array ["X", "Y"])).2 "k").2 = none :=
  ⟨rfl, rfl, rfl, rfl⟩

/-- C2 counterexample: the claim quantifies over every registry whose
stored value for `k` is present but not an ordered sequence, and asserts
the invalid-state error is raised. The stored empty string is present and
not a sequence, yet it is falsy, so `addBindKeyTo` takes the
initialize-a-fresh-list branch and throws nothing. -/
theorem C2_falsy_scalar_no_error :
    (addBindKeyTo (tableSet emptyTable "A" (JSVal.vstr ""))
      "A" (ActionInput.single "Crouch")).1 = none := by
  decide

/-- C2 (amended): if the stored value for `k` is present, not an ordered
sequence, and truthy (a nonempty scalar string), then `addBindKeyTo`
raises the invalid-state error reporting the offending value and performs
no mutation: the table is unchanged and `getActionsForKey(k)` afterwards
still returns the stored scalar. -/
theorem C2_truthy_scalar_throws (t : Table) (k s : String) (a : ActionInput)
    (hs : t k = some (JSVal.vstr s)) (hne : s ≠ "") :
    (addBindKeyTo t k a).1 =
      some ("Binding " ++ s ++
        " is not an array. All bindings must be an array of action!") ∧
    (addBindKeyTo t k a).2 = t ∧
    (getActionsForKey (addBindKeyTo t k a).2 k).2 = some (JSVal.vstr s) := by
  have h1 : addBindKeyTo t k a =
      (some ("Binding " ++ s ++
        " is not an array. All bindings must be an array of action!"), t) := by
    simp [addBindKeyTo, hs, hne]
  refine ⟨by rw [h1], by rw [h1], ?_⟩
  rw [h1]
  simp [getActionsForKey, truthy, hs, hne]

/-- Witness for C2_truthy_scalar_throws at the spec's concrete scenario:
initial binding `{"A": "Jump"}`, then `addBindKeyTo("A", "Crouch")`. -/
theorem C2_truthy_scalar_throws_witness :
    (addBindKeyTo (tableSet emptyTable "A" (JSVal.vstr "Jump"))
      "A" (ActionInput.single "Crouch")).1 =
      some ("Binding " ++ "Jump" ++
        " is not an array. All bindings must be an array of action!") ∧
    (addBindKeyTo (tableSet emptyTable "A" (JSVal.vstr "Jump"))
      "A" (ActionInput.single "Crouch")).2 =
      tableSet emptyTable "A" (JSVal.vstr "Jump") ∧
    (getActionsForKey
      (addBindKeyTo (tableSet emptyTable "A" (JSVal.vstr "Jump"))
        "A" (ActionInput.single "Crouch")).2 "A").2 =
      some (JSVal.vstr "Jump") :=
  C2_truthy_scalar_throws (tableSet emptyTable "A" (JSVal.vstr "Jump"))
    "A" "Jump" (ActionInput.single "Crouch")
    (by simp [tableSet, emptyTable]) (by decide)

/-- C3: for every table, key `k` and action list `L`, after
`setBindingTo(k, L)` the query `getActionsForKey(k)` raises no error and
returns exactly `L` (same elements, same order), regardless of what was
bound before. -/
theorem C3_set_then_get (t : Table) (k : String) (L : List String) :
    getActionsForKey (setBindingTo t k L).2 k = (none, some (JSVal.varr L)) := by
  simp [getActionsForKey, setBindingTo, tableSet, truthy]

/-- C4: for every table, key `k`, action list `L1` and action `x`, after
`setBindingTo(k, L1)` then `addBindKeyTo(k, x)` (which raises no error),
`getActionsForKey(k)` returns `L1` with `x` appended at the end. -/
theorem C4_set_then_add (t : Table) (k : String) (L1 : List String) (x : String) :
    (addBindKeyTo (setBindingTo t k L1).2 k (ActionInput.single x)).1 = none ∧
    (getActionsForKey
      (addBindKeyTo (setBindingTo t k L1).2 k (ActionInput.single x)).2 k).2 =
      some (JSVal.varr (L1 ++ [x])) := by
  simp [addBindKeyTo, setBindingTo, getActionsForKey, tableSet, truthy, actionsOf]

/-- C5: the claim says two successive `addBindKeyTo(k, "Z")` calls on an
empty registry yield `["Z","Z"]`. Evaluating the code: each call creates a
fresh local action list that is never assigned into `this.bindings`, so
the table stays empty and `getActionsForKey(k)` still returns the null
sentinel — the same missing write-back as in the single-call case. -/
theorem C5_double_add_lost :
    (addBindKeyTo (addBindKeyTo emptyTable "k" (ActionInput.single "Z")).2
      "k" (ActionInput.single "Z")).2 = emptyTable ∧
    (getActionsForKey
      (addBindKeyTo (addBindKeyTo emptyTable "k" (ActionInput.single "Z")).2
        "k" (ActionInput.single "Z")).2 "k").2 = none :=
  ⟨rfl, rfl⟩

/-- C6: for every table and key `k` with no stored binding,
`getActionsForKey(k)` returns the null sentinel and `isBound(k)` returns
false (neither raises an error). -/
theorem C6_unbound_queries (t : Table) (k : String) (h : t k = none) :
    getActionsForKey t k = (none, none) ∧ isBound t k = (none, false) := by
  simp [getActionsForKey, isBound, truthy, h]

/-- Witness for C6_unbound_queries: the empty registry and the key "Q". -/
theorem C6_unbound_queries_witness :
    getActionsForKey emptyTable "Q" = (none, none) ∧
    isBound emptyTable "Q" = (none, false) :=
  C6_unbound_queries emptyTable "Q" rfl

/-- C7: constructing a registry with initial bindings `{"A": ["Jump"]}`
gives `isBound("A") = true` and `isBound("B") = false`; constructing with
the argument omitted gives the empty table. -/
theorem C7_initial_bindings :
    (isBound (mkRegistry (some (tableSet emptyTable "A" (JSVal.varr ["Jump"]))))
      "A").2 = true ∧
    (isBound (mkRegistry (some (tableSet emptyTable "A" (JSVal.varr ["Jump"]))))
      "B").2 = false ∧
    mkRegistry none = emptyTable :=
  ⟨by decide, by decide, rfl⟩

/-- C8: every operation other than `addBindKeyTo` — `setBindingTo`,
`getActionsForKey` and `isBound` — is total and never raises an error:
for every table, key and action list, the thrown-error component of each
is `none`. -/
theorem C8_total_operations (t : Table) (k : String) (L : List String) :
    (setBindingTo t k L).1 = none ∧
    (getActionsForKey t k).1 = none ∧
    (isBound t k).1 = none :=
  ⟨rfl, rfl, rfl⟩

/-- C9: for every two distinct keys `k` and `k2`, `setBindingTo(k, L)` and
`addBindKeyTo(k, a)` — whether the latter succeeds or raises the
invalid-state error — leave the value stored under `k2` unchanged, so
`getActionsForKey(k2)` gives the same result before and after. -/
theorem C9_frame (t : Table) (k k2 : String) (L : List String) (a : ActionInput)
    (h : k2 ≠ k) :
    getActionsForKey (setBindingTo t k L).2 k2 = getActionsForKey t k2 ∧
    getActionsForKey (addBindKeyTo t k a).2 k2 = getActionsForKey t k2 := by
  constructor
  · simp [getActionsForKey, setBindingTo, tableSet, h]
  · cases hk : t k with
    | none => simp [addBindKeyTo, hk]
    | some v =>
      cases v with
      | vstr s =>
        by_cases hs : s = "" <;> simp [addBindKeyTo, hk, hs]
      | varr l =>
        simp [addBindKeyTo, hk, getActionsForKey, tableSet, h]

/-- Witness for C9_frame: mutating "A" leaves the query for "B" unchanged
on the empty registry, for both mutation operations. -/
theorem C9_frame_witness :
    getActionsForKey (setBindingTo emptyTable "A" ["Jump"]).2 "B" =
      getActionsForKey emptyTable "B" ∧
    getActionsForKey (addBindKeyTo emptyTable "A" (ActionInput.single "Jump")).2 "B" =
      getActionsForKey emptyTable "B" :=
  C9_frame emptyTable "A" "B" ["Jump"] (ActionInput.single "Jump") (by decide)

/-- C10: for every table and key `k`, after `setBindingTo(k, [])` with the
empty action list, `isBound(k)` returns true and `getActionsForKey(k)`
returns the empty list rather than the null sentinel: the empty array is
truthy, so a key bound to an empty list counts as bound. -/
theorem C10_empty_list_bound (t : Table) (k : String) :
    (isBound (setBindingTo t k []).2 k).2 = true ∧
    (getActionsForKey (setBindingTo t k []).2 k).2 = some (JSVal.varr []) := by
  simp [isBound, getActionsForKey, setBindingTo, tableSet, truthy]

end ActionRegistry
